import Mathlib

/-!
Verification development for the CollegePredictor repository.

Shallow embedding of the two source files:
  * `CollegePredictor/AdmissionCalculator.py` (class `AdmissionsCalculator`)
  * `CollegePredictor/School_profiles.py` (class `SchoolProfileBuilder`)

Python floats are modelled as real numbers; Python dictionaries that the
code only reads at a fixed set of keys are modelled as structures of
`Option` fields (a missing key is `none`); raising a Python exception is
modelled by `Except`.  `datetime.now()` is modelled by an abstract
strictly-increasing counter threaded through the calculator state.
-/

namespace CollegePredictor

/-- Python exceptions that the embedded code can raise, together with the
error vocabulary used by the specification (`DataQualityError`,
`ConfigError`).  The source never defines or raises the latter two; they
are present so that statements about them can be expressed and compared
with what the code actually raises. -/
inductive PyErr where
  | zeroDivisionError
  | dataQualityError
  | configError
  deriving DecidableEq, Repr

/-- A value stored in an audit-entry metadata dictionary: the code stores
floats, strings, or (for `weights_updated`) a weights dictionary. -/
inductive MetaVal where
  | num (x : ℝ)
  | str (x : String)
  deriving Inhabited

/-- One entry of `self.audit_log`.  `datetime.now().isoformat()` is
modelled as an abstract counter value (`timestamp`). -/
structure AuditEntry where
  timestamp : Nat
  action : String
  metadata : List (String × MetaVal)

/-- A per-school dictionary stored in `self.school_profiles`.  The code
reads only the keys `gpa_mean`, `gpa_std` and `competitiveness`;
`hasOtherKeys` records whether the dictionary holds any further keys,
which matters only for Python truthiness (`if not school_profile`). -/
structure SchoolDict where
  gpa_mean : Option ℝ := none
  gpa_std : Option ℝ := none
  competitiveness : Option ℝ := none
  hasOtherKeys : Bool := false

/-- Python truthiness of the dictionary: `not school_profile` holds
exactly when the dictionary has no keys at all. -/
def SchoolDict.isEmptyDict (d : SchoolDict) : Bool :=
  d.gpa_mean.isNone && d.gpa_std.isNone && d.competitiveness.isNone && !d.hasOtherKeys

/-- The empty dictionary `{}`, the default of
`self.school_profiles.get(school_id, {})`. -/
def SchoolDict.empty : SchoolDict := {}

/-- `institution_weights`: the code accesses exactly the keys
`academic`, `contributions` and `mission_fit` with `[]`. -/
structure Weights where
  academic : ℝ
  contributions : ℝ
  mission_fit : ℝ

/-- `self.thresholds`: keys `Safety`, `Target`, `Reach`. -/
structure Thresholds where
  Safety : ℝ
  Target : ℝ
  Reach : ℝ

/-- `student.academic`: keys `gpa` and `test_scores`, both accessed with
`[]` (always present). -/
structure AcademicData where
  gpa : ℝ
  test_scores : ℝ

/-- `student.context`: `school_id` is accessed with `[]`; the other keys
are accessed with `.get` and a default, hence `Option`. -/
structure ContextData where
  school_id : String
  low_income : Option Bool := none
  adversity_score : Option ℝ := none
  underrepresented_group : Option ℝ := none

/-- `student.contributions`: `total` is accessed with `[]`, `leadership`
with `.get('leadership', 0)`. -/
structure ContributionsData where
  total : ℝ
  leadership : Option ℝ := none

/-- The nested `AdmissionsCalculator.Student` record. -/
structure Student where
  academic : AcademicData
  context : ContextData
  contributions : ContributionsData
  mission_alignment : String → Option ℝ

/-- A record of `self.historical_data` (`add_historical_data`). -/
structure HistEntry where
  student : Student
  outcome : Bool
  timestamp : Nat

/-- The mutable state of an `AdmissionsCalculator` instance.  `now` is
the abstract clock used to stamp audit entries. -/
structure AdmissionsCalculator where
  weights : Weights
  mission_metrics : List (String × ℝ)
  school_profiles : String → Option SchoolDict
  audit_log : List AuditEntry := []
  historical_data : List HistEntry := []
  thresholds : Thresholds := ⟨0.7, 0.5, 0.3⟩
  now : Nat := 0

/-- `log_audit`: appends an entry to `self.audit_log` (stamped with the
current clock value) and advances the clock. -/
def log_audit (c : AdmissionsCalculator) (action : String)
    (metadata : List (String × MetaVal)) : AdmissionsCalculator :=
  { c with
    audit_log := c.audit_log ++ [⟨c.now, action, metadata⟩]
    now := c.now + 1 }

/-- The logistic function `1 / (1 + e^(-z))` used for GPA normalization. -/
noncomputable def sigmoid (z : ℝ) : ℝ := 1 / (1 + Real.exp (-z))

/-- `normalize_gpa`: looks up the school dictionary (default `{}`); on a
missing or empty dictionary it logs `missing_school_profile` and falls
back to `gpa / 4.0`; otherwise it computes the z-score against
`gpa_mean` (default 3.0) and `gpa_std` (default 0.5) and applies the
sigmoid.  Division by a zero `gpa_std` raises `ZeroDivisionError`. -/
noncomputable def normalize_gpa (c : AdmissionsCalculator) (s : Student) :
    Except PyErr ℝ × AdmissionsCalculator :=
  let school_profile := (c.school_profiles s.context.school_id).getD SchoolDict.empty
  if school_profile.isEmptyDict then
    (Except.ok (s.academic.gpa / 4.0),
     log_audit c "missing_school_profile" [("school", MetaVal.str s.context.school_id)])
  else
    let school_mean := school_profile.gpa_mean.getD 3.0
    let school_std := school_profile.gpa_std.getD 0.5
    if school_std = 0 then (Except.error PyErr.zeroDivisionError, c)
    else
      let z_score := (s.academic.gpa - school_mean) / school_std
      (Except.ok (sigmoid z_score), c)

/-- `calculate_academic_score`: combines normalized GPA and test score,
scales by school competitiveness, logs the intermediate values, and caps
the result at 1.0. -/
noncomputable def calculate_academic_score (c : AdmissionsCalculator) (s : Student) :
    Except PyErr ℝ × AdmissionsCalculator :=
  match normalize_gpa c s with
  | (Except.error e, c1) => (Except.error e, c1)
  | (Except.ok gpa_score, c1) =>
    let test_score := s.academic.test_scores / 1600
    let school_competitiveness :=
      ((c1.school_profiles s.context.school_id).getD SchoolDict.empty).competitiveness.getD 1.0
    let academic_score := (gpa_score * 0.6 + test_score * 0.4) * school_competitiveness
    let c2 := log_audit c1 "academic_score_calculated"
      [("gpa_score", MetaVal.num gpa_score),
       ("test_score", MetaVal.num test_score),
       ("final_score", MetaVal.num academic_score)]
    (Except.ok (min academic_score 1.0), c2)

/-- `calculate_mission_fit`: weighted sum of the student's alignment
with each mission metric, divided by the sum of the metric weights.
Division by a zero weight sum raises `ZeroDivisionError`. -/
noncomputable def calculate_mission_fit (c : AdmissionsCalculator) (s : Student) :
    Except PyErr ℝ :=
  let fit_score :=
    (c.mission_metrics.map (fun mw => (s.mission_alignment mw.1).getD 0 * mw.2)).sum
  let weight_sum := (c.mission_metrics.map Prod.snd).sum
  if weight_sum = 0 then Except.error PyErr.zeroDivisionError
  else Except.ok (fit_score / weight_sum)

/-- `check_legal_compliance`: a stub that always returns `True`. -/
def check_legal_compliance (_s : Student) : Bool := true

/-- `apply_context_modifiers`: additive adjustments for low income,
adversity, and (compliance-gated) underrepresented group, logged, with
the adjusted score capped at 1.0. -/
def apply_context_modifiers (c : AdmissionsCalculator) (s : Student) (base_score : ℝ) :
    ℝ × AdmissionsCalculator :=
  let adjustments : ℝ :=
    (if s.context.low_income.getD false then 0.05 else 0) +
    (s.context.adversity_score.getD 0) * 0.1 +
    (if check_legal_compliance s then (s.context.underrepresented_group.getD 0) * 0.03 else 0)
  let c1 := log_audit c "context_adjustments_applied"
    [("base_score", MetaVal.num base_score), ("adjustments", MetaVal.num adjustments)]
  (min (base_score + adjustments) 1.0, c1)

/-- `calculate_confidence_score`: a stub returning the constant 0.8. -/
def calculate_confidence_score (_s : Student) : ℝ := 0.8

/-- `analyze_intersectionality`: +0.05 when adversity exceeds 0.7 and
leadership exceeds 0.5, else 0. -/
noncomputable def analyze_intersectionality (s : Student) : ℝ :=
  if s.context.adversity_score.getD 0 > 0.7 ∧ s.contributions.leadership.getD 0 > 0.5
  then 0.05 else 0

/-- `classify_application`: ordered decision list over the configured
thresholds with fixed confidence gates 0.7 and 0.5. -/
noncomputable def classify_application (c : AdmissionsCalculator)
    (score confidence : ℝ) : String :=
  if score ≥ c.thresholds.Safety ∧ confidence ≥ 0.7 then "Safety"
  else if score ≥ c.thresholds.Target ∧ confidence ≥ 0.5 then "Target"
  else if score ≥ c.thresholds.Reach then "Reach"
  else "Below Threshold"

/-- The component-scores dictionary of the result. -/
structure ComponentScores where
  academic : ℝ
  contributions : ℝ
  mission_fit : ℝ

/-- The dictionary returned by `calculate_total_score`. -/
structure ScoreResult where
  final_score : ℝ
  confidence : ℝ
  category : String
  component_scores : ComponentScores

/-- `calculate_total_score`: academic score, contributions, mission fit,
weighted base composite, context adjustments, intersectionality bonus,
and the final `min(context_adjusted + intersection_bonus, 1.0)`. -/
noncomputable def calculate_total_score (c : AdmissionsCalculator) (s : Student) :
    Except PyErr ScoreResult × AdmissionsCalculator :=
  match calculate_academic_score c s with
  | (Except.error e, c1) => (Except.error e, c1)
  | (Except.ok academic, c1) =>
    let contributions := s.contributions.total
    match calculate_mission_fit c1 s with
    | Except.error e => (Except.error e, c1)
    | Except.ok mission_fit =>
      let base_score :=
        academic * c1.weights.academic +
        contributions * c1.weights.contributions +
        mission_fit * c1.weights.mission_fit
      let p := apply_context_modifiers c1 s base_score
      let context_adjusted := p.1
      let c2 := p.2
      let intersection_bonus := analyze_intersectionality s
      let confidence := calculate_confidence_score s
      let final_score := min (context_adjusted + intersection_bonus) 1.0
      (Except.ok
        { final_score := final_score
          confidence := confidence
          category := classify_application c2 final_score confidence
          component_scores :=
            { academic := academic
              contributions := contributions
              mission_fit := mission_fit } }, c2)

/-- `update_weights`: replaces the weights and logs the update.  The
metadata dictionary value is a weights dictionary; it is recorded here
as its three numeric entries. -/
def update_weights (c : AdmissionsCalculator) (new_weights : Weights) :
    AdmissionsCalculator :=
  log_audit { c with weights := new_weights } "weights_updated"
    [("academic", MetaVal.num new_weights.academic),
     ("contributions", MetaVal.num new_weights.contributions),
     ("mission_fit", MetaVal.num new_weights.mission_fit)]

/-- `add_historical_data`: appends a record to `self.historical_data`
stamped with the abstract clock. -/
def add_historical_data (c : AdmissionsCalculator) (student_data : Student)
    (admission_outcome : Bool) : AdmissionsCalculator :=
  { c with
    historical_data := c.historical_data ++ [⟨student_data, admission_outcome, c.now⟩]
    now := c.now + 1 }

/-! ## School_profiles.py -/

/-- The `SchoolProfile` dataclass. -/
structure SchoolProfile where
  id : String
  name : String
  gpa_mean : Option ℝ := none
  gpa_std : Option ℝ := none
  competitiveness : Option ℝ := none
  ap_courses : Option ℤ := none
  data_source : String := "unknown"

/-- The environment of external effects the three data sources depend
on.  Each source body sits in a `try/except` block: any exception makes
the source yield no data (the specification treats the sources as
external failable collaborators).  For NCES and CDE the success data is
the fixed mock dictionary in the source, so only the failure flag
varies; for the web scraper the fetched page determines the parsed
school name and mean GPA, so a success carries that pair. -/
structure SourceEnv where
  ncesFails : String → Bool
  cdeFails : String → Bool
  scrapeResult : String → Option (String × ℝ)

/-- `_get_nces_data`: on success, the mock NCES response. -/
def get_nces_data (env : SourceEnv) (school_id : String) : Option SchoolProfile :=
  if env.ncesFails school_id then none
  else some
    { id := school_id
      name := "Sample High School"
      gpa_mean := some 3.4
      gpa_std := some 0.3
      ap_courses := some 15
      data_source := "nces" }

/-- `round(x, 1)`: rounding to one decimal place.  Python uses banker's
rounding on floats; no value this code rounds sits on a tie, so rounding
half upwards is an equivalent embedding here. -/
noncomputable def round1 (x : ℝ) : ℝ := (round (10 * x) : ℤ) / 10

/-- `_uc_eligibility_to_gpa`: `round(3.0 + eligibility_rate * 0.7, 1)`. -/
noncomputable def uc_eligibility_to_gpa (eligibility_rate : ℝ) : ℝ :=
  round1 (3.0 + eligibility_rate * 0.7)

/-- `_get_cde_data`: on success, the mock CDE response with the GPA mean
derived from the UC/CSU eligibility rate. -/
noncomputable def get_cde_data (env : SourceEnv) (school_id : String) :
    Option SchoolProfile :=
  if env.cdeFails school_id then none
  else some
    { id := school_id
      name := "CA Sample High"
      gpa_mean := some (uc_eligibility_to_gpa 0.72)
      gpa_std := some 0.25
      ap_courses := some 22
      data_source := "cde" }

/-- `_scrape_school_data`: on success the parsed name and mean GPA with
a default standard deviation; any exception yields the bare
`SchoolProfile(id=school_id, name="Unknown School")`. -/
def scrape_school_data (env : SourceEnv) (school_id : String) : SchoolProfile :=
  match env.scrapeResult school_id with
  | some ng =>
    { id := school_id
      name := ng.1
      gpa_mean := some ng.2
      gpa_std := some 0.3
      data_source := "web_scraping" }
  | none => { id := school_id, name := "Unknown School" }

/-- Python truthiness of the `Optional[int]` field `ap_courses`: `None`
and `0` are falsy, every other integer is truthy. -/
def apCoursesTruthy (p : SchoolProfile) : Bool :=
  match p.ap_courses with
  | some n => n != 0
  | none => false

/-- `_estimate_gpa_stats`: fallback estimation.  Note the Python guard
is `if profile.ap_courses:`, which is truthiness — it takes the first
branch only when `ap_courses` is present AND nonzero. -/
noncomputable def estimate_gpa_stats (profile : SchoolProfile) : SchoolProfile :=
  if apCoursesTruthy profile then
    { profile with
      gpa_mean := some (3.2 + (profile.ap_courses.getD 0 : ℝ) * 0.02)
      gpa_std := some 0.35 }
  else
    { profile with gpa_mean := some 3.0, gpa_std := some 0.4 }

/-- The state of a `SchoolProfileBuilder`: its in-memory cache. -/
structure BuilderState where
  cache : String → Option SchoolProfile

/-- The builder's initial state: an empty cache. -/
def BuilderState.init : BuilderState := ⟨fun _ => none⟩

/-- The `or`-chain of the three data sources in priority order.  A
`SchoolProfile` dataclass instance is always truthy in Python, so the
chain selects the first source that did not fail; `_scrape_school_data`
never returns `None`. -/
noncomputable def sourceChain (env : SourceEnv) (school_id : String) : SchoolProfile :=
  ((get_nces_data env school_id).or (get_cde_data env school_id)).getD
    (scrape_school_data env school_id)

/-- `get_school_profile`: cache lookup, then the source chain, then the
estimation fallback when the selected profile has no `gpa_mean`; the
result is cached. -/
noncomputable def get_school_profile (env : SourceEnv) (st : BuilderState)
    (school_id : String) : SchoolProfile × BuilderState :=
  match st.cache school_id with
  | some cached => (cached, st)
  | none =>
    let profile0 := sourceChain env school_id
    let profile :=
      if profile0.gpa_mean = none then estimate_gpa_stats profile0 else profile0
    (profile, ⟨fun x => if x = school_id then some profile else st.cache x⟩)

/-- A profile has its GPA statistics populated. -/
def populated (p : SchoolProfile) : Prop :=
  p.gpa_mean ≠ none ∧ p.gpa_std ≠ none

/-- Every cached profile has its GPA statistics populated. -/
def cacheInv (st : BuilderState) : Prop :=
  ∀ school_id p, st.cache school_id = some p → populated p

/-! ## Helper lemmas about the profile resolver -/

/-- Estimation always populates both GPA statistics. -/
lemma estimate_gpa_stats_populated (p : SchoolProfile) :
    populated (estimate_gpa_stats p) := by
  unfold estimate_gpa_stats populated
  split <;> simp

/-- Whichever source the chain selects, a profile that carries a
`gpa_mean` also carries a `gpa_std`. -/
lemma sourceChain_std_of_mean (env : SourceEnv) (school_id : String) :
    (sourceChain env school_id).gpa_mean ≠ none →
      (sourceChain env school_id).gpa_std ≠ none := by
  unfold sourceChain get_nces_data get_cde_data scrape_school_data
  cases hn : env.ncesFails school_id <;>
    cases hc : env.cdeFails school_id <;>
    cases hs : env.scrapeResult school_id <;>
    simp [Option.or]

/-- An environment in which every source fails for every school. -/
def envAllFail : SourceEnv := ⟨fun _ => true, fun _ => true, fun _ => none⟩

/-- With all sources failing, the chain yields the bare
`SchoolProfile(id=school_id, name="Unknown School")`. -/
lemma sourceChain_envAllFail (school_id : String) :
    sourceChain envAllFail school_id =
      { id := school_id, name := "Unknown School" } := by
  simp [sourceChain, get_nces_data, get_cde_data, scrape_school_data, envAllFail, Option.or]

/-- Claim C8: two successive resolutions of the same `school_id` return
identical results, and the second call does not consult the data sources
at all — it is served from the cache.  The second call is run against an
arbitrary environment `env2`, so its result cannot depend on any source;
it returns exactly the first call's profile and leaves the builder state
unchanged. -/
theorem c8_resolve_cached_idempotent (env1 env2 : SourceEnv) (st : BuilderState)
    (school_id : String) :
    get_school_profile env2 (get_school_profile env1 st school_id).2 school_id =
      ((get_school_profile env1 st school_id).1,
       (get_school_profile env1 st school_id).2) := by
  cases h : st.cache school_id with
  | some cached => simp [get_school_profile, h]
  | none => simp [get_school_profile, h]

/-- Claim C5: resolution never fails outward (it is a total function of
the environment and state) and, starting from any cache in which every
entry has populated GPA statistics, the returned profile has both
`gpa_mean` and `gpa_std` populated and the new cache still satisfies the
invariant. -/
theorem c5_resolve_total_populated (env : SourceEnv) (st : BuilderState)
    (school_id : String) (h : cacheInv st) :
    populated (get_school_profile env st school_id).1 ∧
      cacheInv (get_school_profile env st school_id).2 := by
  cases hc : st.cache school_id with
  | some cached =>
    simp only [get_school_profile, hc]
    exact ⟨h school_id cached hc, h⟩
  | none =>
    have hpop : populated
        (if (sourceChain env school_id).gpa_mean = none
         then estimate_gpa_stats (sourceChain env school_id)
         else sourceChain env school_id) := by
      split
      · exact estimate_gpa_stats_populated _
      · next hne => exact ⟨hne, sourceChain_std_of_mean env school_id hne⟩
    simp only [get_school_profile, hc]
    refine ⟨hpop, ?_⟩
    intro x p hx
    simp only at hx
    by_cases hxid : x = school_id
    · subst hxid
      rw [if_pos rfl] at hx
      cases hx
      exact hpop
    · rw [if_neg hxid] at hx
      exact h x p hx

/-- Witness for C5 at a concrete environment, state and school. -/
theorem c5_resolve_total_populated_witness :
    populated (get_school_profile envAllFail BuilderState.init "unknown_HS_456").1 ∧
      cacheInv (get_school_profile envAllFail BuilderState.init "unknown_HS_456").2 :=
  c5_resolve_total_populated envAllFail BuilderState.init "unknown_HS_456"
    (fun _ _ hx => nomatch hx)

/-- Counterexample for C4: `_estimate_gpa_stats` applied to a profile
whose `ap_courses` is known and equal to 0 yields the 3.0 / 0.4 default
statistics, not `3.2 + 0 * 0.02 = 3.2` / 0.35 as the claim's "when
ap_courses is known" branch demands: the Python guard
`if profile.ap_courses:` tests truthiness, and `0` is falsy. -/
theorem c4_counterexample_ap_zero :
    (⟨"HS_0", "Zero AP High", none, none, none, some 0, "unknown"⟩ :
        SchoolProfile).ap_courses = some 0 ∧
    (estimate_gpa_stats
        ⟨"HS_0", "Zero AP High", none, none, none, some 0, "unknown"⟩).gpa_mean =
      some 3.0 ∧
    (estimate_gpa_stats
        ⟨"HS_0", "Zero AP High", none, none, none, some 0, "unknown"⟩).gpa_std =
      some 0.4 ∧
    ¬((estimate_gpa_stats
        ⟨"HS_0", "Zero AP High", none, none, none, some 0, "unknown"⟩).gpa_mean =
          some (3.2 + (0 : ℝ) * 0.02) ∧
      (estimate_gpa_stats
        ⟨"HS_0", "Zero AP High", none, none, none, some 0, "unknown"⟩).gpa_std =
          some 0.35) := by
  refine ⟨rfl, by simp [estimate_gpa_stats, apCoursesTruthy],
    by simp [estimate_gpa_stats, apCoursesTruthy], ?_⟩
  simp only [estimate_gpa_stats, apCoursesTruthy]
  norm_num

/-- Claim C4 (amended): resolving an uncached school with all three
sources failing yields exactly `gpa_mean = 3.0`, `gpa_std = 0.4`;
estimation is skipped whenever the source chain produced a `gpa_mean`;
and estimation yields `3.2 + ap_courses * 0.02` / 0.35 exactly when
`ap_courses` is known AND nonzero, falling back to 3.0 / 0.4 when
`ap_courses` is absent or zero. -/
theorem c4_estimation_fallback (env : SourceEnv) (st : BuilderState)
    (school_id : String) (hmiss : st.cache school_id = none) :
    (env.ncesFails school_id = true → env.cdeFails school_id = true →
      env.scrapeResult school_id = none →
      (get_school_profile env st school_id).1.gpa_mean = some 3.0 ∧
        (get_school_profile env st school_id).1.gpa_std = some 0.4) ∧
    (∀ g, (sourceChain env school_id).gpa_mean = some g →
      (get_school_profile env st school_id).1 = sourceChain env school_id) ∧
    (∀ p : SchoolProfile, ∀ n : ℤ, p.ap_courses = some n → n ≠ 0 →
      (estimate_gpa_stats p).gpa_mean = some (3.2 + (n : ℝ) * 0.02) ∧
        (estimate_gpa_stats p).gpa_std = some 0.35) ∧
    (∀ p : SchoolProfile, p.ap_courses = none ∨ p.ap_courses = some 0 →
      (estimate_gpa_stats p).gpa_mean = some 3.0 ∧
        (estimate_gpa_stats p).gpa_std = some 0.4) := by
  refine ⟨?_, ?_, ?_, ?_⟩
  · intro hn hcde hs
    have hchain : sourceChain env school_id =
        { id := school_id, name := "Unknown School" } := by
      simp [sourceChain, get_nces_data, get_cde_data, scrape_school_data,
        hn, hcde, hs, Option.or]
    simp [get_school_profile, hmiss, hchain, estimate_gpa_stats, apCoursesTruthy]
  · intro g hg
    simp [get_school_profile, hmiss, hg]
  · intro p n hp hn
    simp [estimate_gpa_stats, apCoursesTruthy, hp, hn]
  · intro p hp
    rcases hp with hp | hp <;> simp [estimate_gpa_stats, apCoursesTruthy, hp]

/-- Witness for C4 at a concrete environment, state and school. -/
theorem c4_estimation_fallback_witness :
    (get_school_profile envAllFail BuilderState.init "unknown_HS_456").1.gpa_mean =
      some 3.0 ∧
    (get_school_profile envAllFail BuilderState.init "unknown_HS_456").1.gpa_std =
      some 0.4 :=
  (c4_estimation_fallback envAllFail BuilderState.init "unknown_HS_456" rfl).1
    rfl rfl rfl

/-! ## Concrete instances used by witnesses and counterexamples -/

/-- A school dictionary whose `gpa_std` entry is 0. -/
def dZeroStd : SchoolDict := { gpa_mean := some 3.5, gpa_std := some 0 }

/-- A school dictionary carrying only a `competitiveness` key: nonempty,
but with no `gpa_mean` or `gpa_std` entry. -/
def dOnlyComp : SchoolDict := { competitiveness := some 1.0 }

/-- The competitive-school dictionary of the source's demo data. -/
def dDemo : SchoolDict :=
  { gpa_mean := some 3.8, gpa_std := some 0.2, competitiveness := some 1.2 }

/-- A calculator whose every school profile has `gpa_std = 0`. -/
def cZeroStd : AdmissionsCalculator :=
  { weights := ⟨0.4, 0.3, 0.3⟩
    mission_metrics := [("diversity", 0.4), ("community_impact", 0.6)]
    school_profiles := fun _ => some dZeroStd }

/-- A calculator whose mission metric weights are all zero. -/
def cZeroWeights : AdmissionsCalculator :=
  { weights := ⟨0.4, 0.3, 0.3⟩
    mission_metrics := [("diversity", 0), ("community_impact", 0)]
    school_profiles := fun _ => none }

/-- A calculator whose school profiles carry only a competitiveness key. -/
def cOnlyComp : AdmissionsCalculator :=
  { weights := ⟨0.4, 0.3, 0.3⟩
    mission_metrics := [("diversity", 0.4), ("community_impact", 0.6)]
    school_profiles := fun _ => some dOnlyComp }

/-- A calculator with the source's demo configuration. -/
def cDemo : AdmissionsCalculator :=
  { weights := ⟨0.4, 0.3, 0.3⟩
    mission_metrics := [("diversity", 0.4), ("community_impact", 0.6)]
    school_profiles := fun _ => some dDemo }

/-- The demo student of the source's `__main__` block. -/
def sBasic : Student :=
  { academic := ⟨3.7, 1450⟩
    context := { school_id := "HS_123", low_income := some true,
                 adversity_score := some 0.8 }
    contributions := { total := 0.85, leadership := some 0.9 }
    mission_alignment := fun m =>
      if m = "diversity" then some 0.7
      else if m = "community_impact" then some 0.8 else none }

/-! ## Claims about `normalize_gpa` and `calculate_mission_fit` -/

/-- Counterexample for C2: with a resolved profile whose `gpa_std` is 0,
`normalize_gpa` raises a plain `ZeroDivisionError`; it is not guarded
and not reported as a `DataQualityError` — no such error class exists in
the code. -/
theorem c2_counterexample_raw_zero_division :
    (normalize_gpa cZeroStd sBasic).1 = Except.error PyErr.zeroDivisionError ∧
      (Except.error PyErr.zeroDivisionError : Except PyErr ℝ) ≠
        Except.error PyErr.dataQualityError := by
  constructor
  · simp [normalize_gpa, cZeroStd, sBasic, dZeroStd, SchoolDict.isEmptyDict,
      SchoolDict.empty]
  · simp

/-- Claim C2 (amended): if the resolved school dictionary is nonempty
and stores `gpa_std = 0`, `normalize_gpa` fails with an unguarded
`ZeroDivisionError` that propagates to the caller unchanged (the state
is untouched: nothing is logged and nothing is swallowed). -/
theorem c2_zero_std_unguarded (c : AdmissionsCalculator) (s : Student)
    (d : SchoolDict) (hd : c.school_profiles s.context.school_id = some d)
    (hne : d.isEmptyDict = false) (hz : d.gpa_std = some 0) :
    normalize_gpa c s = (Except.error PyErr.zeroDivisionError, c) := by
  simp [normalize_gpa, hd, hne, hz]

/-- Witness for C2 at the concrete zero-deviation configuration. -/
theorem c2_zero_std_unguarded_witness :
    normalize_gpa cZeroStd sBasic = (Except.error PyErr.zeroDivisionError, cZeroStd) :=
  c2_zero_std_unguarded cZeroStd sBasic dZeroStd rfl rfl rfl

/-- Counterexample for C3: with all-zero mission metric weights,
`calculate_mission_fit` raises a plain `ZeroDivisionError`; no
`ConfigError` is raised — no such error class exists in the code. -/
theorem c3_counterexample_raw_zero_division :
    calculate_mission_fit cZeroWeights sBasic = Except.error PyErr.zeroDivisionError ∧
      (Except.error PyErr.zeroDivisionError : Except PyErr ℝ) ≠
        Except.error PyErr.configError := by
  constructor
  · simp [calculate_mission_fit, cZeroWeights]
  · simp

/-- Claim C3 (amended): whenever the mission metric weights sum to 0,
`calculate_mission_fit` fails with an unguarded `ZeroDivisionError`
that propagates to the caller. -/
theorem c3_zero_weight_sum_unguarded (c : AdmissionsCalculator) (s : Student)
    (h : (c.mission_metrics.map Prod.snd).sum = 0) :
    calculate_mission_fit c s = Except.error PyErr.zeroDivisionError := by
  simp [calculate_mission_fit, h]

/-- Witness for C3 at the concrete all-zero-weights configuration. -/
theorem c3_zero_weight_sum_unguarded_witness :
    calculate_mission_fit cZeroWeights sBasic = Except.error PyErr.zeroDivisionError :=
  c3_zero_weight_sum_unguarded cZeroWeights sBasic (by simp [cZeroWeights])

/-- Claim C7: with a present, nonempty school dictionary whose effective
`gpa_std` (stored value, or the 0.5 default) is positive, the GPA
normalization succeeds and its value lies strictly between 0 and 1. -/
theorem c7_normalize_gpa_open_unit (c : AdmissionsCalculator) (s : Student)
    (d : SchoolDict) (hd : c.school_profiles s.context.school_id = some d)
    (hne : d.isEmptyDict = false) (hstd : 0 < d.gpa_std.getD 0.5) :
    ∃ v, (normalize_gpa c s).1 = Except.ok v ∧ 0 < v ∧ v < 1 := by
  have hnz : d.gpa_std.getD 0.5 ≠ 0 := ne_of_gt hstd
  refine ⟨sigmoid ((s.academic.gpa - d.gpa_mean.getD 3.0) / d.gpa_std.getD 0.5),
    ?_, ?_, ?_⟩
  · simp [normalize_gpa, hd, hne, hnz]
  · unfold sigmoid
    positivity
  · unfold sigmoid
    rw [div_lt_one (by positivity)]
    linarith [Real.exp_pos (-((s.academic.gpa - d.gpa_mean.getD 3.0) / d.gpa_std.getD 0.5))]

/-- Witness for C7 at the demo school profile (`gpa_std = 0.2`). -/
theorem c7_normalize_gpa_open_unit_witness :
    ∃ v, (normalize_gpa cDemo sBasic).1 = Except.ok v ∧ 0 < v ∧ v < 1 :=
  c7_normalize_gpa_open_unit cDemo sBasic dDemo rfl rfl
    (by norm_num [dDemo])

/-- Claim C9: on a present, nonempty school dictionary, `normalize_gpa`
computes the sigmoid of the z-score against the stored statistics with
the defaults `gpa_mean = 3.0` and `gpa_std = 0.5` substituted for
missing keys; the state is unchanged, so no `missing_school_profile`
audit entry is logged and the `gpa / 4.0` fallback is not used. -/
theorem c9_nonempty_profile_defaults (c : AdmissionsCalculator) (s : Student)
    (d : SchoolDict) (hd : c.school_profiles s.context.school_id = some d)
    (hne : d.isEmptyDict = false) (hnz : d.gpa_std.getD 0.5 ≠ 0) :
    normalize_gpa c s =
      (Except.ok (sigmoid ((s.academic.gpa - d.gpa_mean.getD 3.0) / d.gpa_std.getD 0.5)),
       c) := by
  simp [normalize_gpa, hd, hne, hnz]

/-- Witness for C9: a profile carrying only a competitiveness key is
nonempty, so both defaults are substituted and no audit entry is
written. -/
theorem c9_nonempty_profile_defaults_witness :
    normalize_gpa cOnlyComp sBasic =
      (Except.ok (sigmoid ((3.7 - 3.0) / 0.5)), cOnlyComp) :=
  c9_nonempty_profile_defaults cOnlyComp sBasic dOnlyComp rfl rfl
    (by norm_num [dOnlyComp])

/-! ## Claim about `classify_application` -/

/-- The order of the categories, as the claim states it:
Safety > Target > Reach > Below Threshold. -/
def categoryRank (category : String) : ℕ :=
  if category = "Safety" then 3
  else if category = "Target" then 2
  else if category = "Reach" then 1
  else 0

/-- Claim C6: `classify_application` is monotonic — raising the score
and/or the confidence never lowers the assigned category, for every
threshold configuration. -/
theorem c6_classify_monotone (c : AdmissionsCalculator) (s1 s2 conf1 conf2 : ℝ)
    (hs : s1 ≤ s2) (hc : conf1 ≤ conf2) :
    categoryRank (classify_application c s1 conf1) ≤
      categoryRank (classify_application c s2 conf2) := by
  by_cases hB1 : s2 ≥ c.thresholds.Safety ∧ conf2 ≥ 0.7
  · have h2 : classify_application c s2 conf2 = "Safety" := by
      unfold classify_application
      rw [if_pos hB1]
    have h1 : categoryRank (classify_application c s1 conf1) ≤ 3 := by
      unfold classify_application
      split_ifs <;> decide
    have h3 : categoryRank "Safety" = 3 := by decide
    rw [h2, h3]
    exact h1
  · have hA1 : ¬(s1 ≥ c.thresholds.Safety ∧ conf1 ≥ 0.7) := by
      intro h
      exact hB1 ⟨le_trans h.1 hs, le_trans h.2 hc⟩
    by_cases hB2 : s2 ≥ c.thresholds.Target ∧ conf2 ≥ 0.5
    · have h2 : classify_application c s2 conf2 = "Target" := by
        unfold classify_application
        rw [if_neg hB1, if_pos hB2]
      have h1 : categoryRank (classify_application c s1 conf1) ≤ 2 := by
        unfold classify_application
        rw [if_neg hA1]
        split_ifs <;> decide
      have h3 : categoryRank "Target" = 2 := by decide
      rw [h2, h3]
      exact h1
    · have hA2 : ¬(s1 ≥ c.thresholds.Target ∧ conf1 ≥ 0.5) := by
        intro h
        exact hB2 ⟨le_trans h.1 hs, le_trans h.2 hc⟩
      by_cases hB3 : s2 ≥ c.thresholds.Reach
      · have h2 : classify_application c s2 conf2 = "Reach" := by
          unfold classify_application
          rw [if_neg hB1, if_neg hB2, if_pos hB3]
        have h1 : categoryRank (classify_application c s1 conf1) ≤ 1 := by
          unfold classify_application
          rw [if_neg hA1, if_neg hA2]
          split_ifs <;> decide
        have h3 : categoryRank "Reach" = 1 := by decide
        rw [h2, h3]
        exact h1
      · have hA3 : ¬(s1 ≥ c.thresholds.Reach) := fun h => hB3 (le_trans h hs)
        have h1 : classify_application c s1 conf1 = "Below Threshold" := by
          unfold classify_application
          rw [if_neg hA1, if_neg hA2, if_neg hA3]
        have h0 : categoryRank "Below Threshold" = 0 := by decide
        rw [h1, h0]
        exact Nat.zero_le _

/-- Witness for C6: with the default thresholds, raising both score and
confidence does not lower the category. -/
theorem c6_classify_monotone_witness :
    categoryRank (classify_application cDemo 0.4 0.6) ≤
      categoryRank (classify_application cDemo 0.8 0.8) :=
  c6_classify_monotone cDemo 0.4 0.8 0.6 0.8 (by norm_num) (by norm_num)

/-! ## Frame machinery for the calculator state -/

/-- The configuration fields of the calculator are unchanged and the
audit log has only been extended at the end: every entry present in `c`
is still present, in its original position, in `c2`. -/
def FramePreserved (c c2 : AdmissionsCalculator) : Prop :=
  c2.weights = c.weights ∧
  c2.mission_metrics = c.mission_metrics ∧
  c2.school_profiles = c.school_profiles ∧
  c2.thresholds = c.thresholds ∧
  c2.historical_data = c.historical_data ∧
  ∃ t, c2.audit_log = c.audit_log ++ t

lemma framePreserved_refl (c : AdmissionsCalculator) : FramePreserved c c :=
  ⟨rfl, rfl, rfl, rfl, rfl, ⟨[], by simp⟩⟩

lemma framePreserved_trans {a b c : AdmissionsCalculator}
    (h1 : FramePreserved a b) (h2 : FramePreserved b c) : FramePreserved a c := by
  obtain ⟨w1, m1, s1, t1, hd1, ta, la⟩ := h1
  obtain ⟨w2, m2, s2, t2, hd2, tb, lb⟩ := h2
  exact ⟨w2.trans w1, m2.trans m1, s2.trans s1, t2.trans t1, hd2.trans hd1,
    ⟨ta ++ tb, by rw [lb, la, List.append_assoc]⟩⟩

lemma framePreserved_log_audit (c : AdmissionsCalculator) (action : String)
    (metadata : List (String × MetaVal)) :
    FramePreserved c (log_audit c action metadata) :=
  ⟨rfl, rfl, rfl, rfl, rfl, ⟨[⟨c.now, action, metadata⟩], rfl⟩⟩

lemma framePreserved_normalize_gpa (c : AdmissionsCalculator) (s : Student) :
    FramePreserved c (normalize_gpa c s).2 := by
  simp only [normalize_gpa]
  split_ifs
  · exact framePreserved_log_audit _ _ _
  · exact framePreserved_refl _
  · exact framePreserved_refl _

lemma framePreserved_academic (c : AdmissionsCalculator) (s : Student) :
    FramePreserved c (calculate_academic_score c s).2 := by
  have h := framePreserved_normalize_gpa c s
  unfold calculate_academic_score
  rcases hn : normalize_gpa c s with ⟨res, c1⟩
  rw [hn] at h
  cases res with
  | error e => exact h
  | ok v => exact framePreserved_trans h (framePreserved_log_audit _ _ _)

lemma framePreserved_context_modifiers (c : AdmissionsCalculator) (s : Student)
    (base_score : ℝ) : FramePreserved c (apply_context_modifiers c s base_score).2 :=
  framePreserved_log_audit _ _ _

lemma framePreserved_total_score (c : AdmissionsCalculator) (s : Student) :
    FramePreserved c (calculate_total_score c s).2 := by
  have h := framePreserved_academic c s
  unfold calculate_total_score
  split
  next e c1 heq =>
    rw [heq] at h
    exact h
  next a c1 heq =>
    rw [heq] at h
    split
    next e hm => exact h
    next mf hm => exact framePreserved_trans h (framePreserved_context_modifiers _ _ _)

/-! ## A concrete scoring run that succeeds with a negative final score -/

/-- A calculator that weights contributions only; its school lookup
always misses, so GPA normalization takes the `gpa / 4.0` fallback. -/
def cNeg : AdmissionsCalculator :=
  { weights := ⟨0, 1, 0⟩
    mission_metrics := [("m", 1)]
    school_profiles := fun _ => none }

/-- A student with a (caller-supplied, unvalidated) negative
contributions total. -/
def sNeg : Student :=
  { academic := ⟨0, 0⟩
    context := { school_id := "X" }
    contributions := { total := -5 }
    mission_alignment := fun _ => none }

/-- The result of scoring `sNeg` under `cNeg`. -/
def RNeg : ScoreResult := ⟨-5, 0.8, "Below Threshold", ⟨0, -5, 0⟩⟩

lemma eval_total_neg : (calculate_total_score cNeg sNeg).1 = Except.ok RNeg := by
  simp only [calculate_total_score, calculate_academic_score, normalize_gpa,
    calculate_mission_fit, apply_context_modifiers, analyze_intersectionality,
    calculate_confidence_score, classify_application, check_legal_compliance,
    log_audit, cNeg, sNeg, RNeg, SchoolDict.empty, SchoolDict.isEmptyDict,
    Option.getD, Option.isNone]
  norm_num

/-- Claim C1: whenever `calculate_total_score` returns a result, the
`final_score` is at most 1.0 — it is `min(context_adjusted +
intersection_bonus, 1.0)` by construction — and since no lower clamp is
applied there are configurations on which it is negative. -/
theorem c1_final_score_upper_capped (c : AdmissionsCalculator) (s : Student)
    (r : ScoreResult) (h : (calculate_total_score c s).1 = Except.ok r) :
    r.final_score ≤ 1 ∧
    ∃ c0 s0 r0, (calculate_total_score c0 s0).1 = Except.ok r0 ∧
      r0.final_score < 0 := by
  constructor
  · unfold calculate_total_score at h
    split at h
    next e c1 heq => exact absurd h (by simp)
    next a c1 heq =>
      split at h
      next e hm => exact absurd h (by simp)
      next mf hm =>
        simp only [Except.ok.injEq] at h
        subst h
        simp only [min_le_iff]
        right
        norm_num
  · refine ⟨cNeg, sNeg, RNeg, eval_total_neg, ?_⟩
    norm_num [RNeg]

/-- Witness for C1 at the concrete negative-score run. -/
theorem c1_final_score_upper_capped_witness :
    RNeg.final_score ≤ 1 ∧
    ∃ c0 s0 r0, (calculate_total_score c0 s0).1 = Except.ok r0 ∧
      r0.final_score < 0 :=
  c1_final_score_upper_capped cNeg sNeg RNeg eval_total_neg

/-- Claim C10: a successful `calculate_total_score` call leaves the
weights, mission metrics, school profiles, thresholds and historical
data unchanged, and only appends to the audit log: the prior log is an
unchanged initial segment of the new one. -/
theorem c10_total_score_frame (c : AdmissionsCalculator) (s : Student)
    (r : ScoreResult) (_h : (calculate_total_score c s).1 = Except.ok r) :
    FramePreserved c (calculate_total_score c s).2 :=
  framePreserved_total_score c s

/-- Witness for C10 at the concrete negative-score run. -/
theorem c10_total_score_frame_witness :
    FramePreserved cNeg (calculate_total_score cNeg sNeg).2 :=
  c10_total_score_frame cNeg sNeg RNeg eval_total_neg

end CollegePredictor
